import Mathlib

/-!
Verification of the gogo project scaffolder configuration model and
configuration-to-file-set resolution engine.

The embedding follows the Go sources:
* `pkg/config` (ProjectConfig, defaults, per-type presets, Load/Save), and
* `internal/wizard/generator.go` (GenerateProject and its helpers).

Modelling conventions:
* A file-system path is a list of components, mirroring the arguments the code
  passes to filepath.Join (all paths below are relative to the project root
  `outputDir/<Name>`; the project root itself is the empty component list).
* Each generator helper is embedded as the ordered list of file-system
  operations (MkdirAll / WriteFile) it performs; the Go functions perform
  exactly these calls in exactly this order, returning early on the first
  failing call, so running the operation list against an environment that can
  fail any single operation (`runOps` below) is observationally equivalent.
* The wall clock is passed in explicitly: `now` is the RFC3339 timestamp
  string used by the metadata file, `year` the current year used by LICENSE.
* The Go yaml marshal/unmarshal pair is modelled at the structured-document
  level: a document is an ordered list of (key, value) pairs with string and
  boolean scalars; the byte-level yaml syntax is abstracted away.
* Literal braces and apostrophes inside generated file contents are written
  with \x7b, \x7d and \x27 escapes.
-/

namespace Gogo

/-- Project type, a string in the source (`type ProjectType string`). -/
abbrev ProjectType := String

/-- The `cli` project type constant. -/
def TypeCLI : ProjectType := "cli"

/-- The `api` project type constant. -/
def TypeAPI : ProjectType := "api"

/-- The `library` project type constant. -/
def TypeLibrary : ProjectType := "library"

/-- The `default` project type constant. -/
def TypeDefault : ProjectType := "default"

/-- ProjectConfig, field for field from `pkg/config`. -/
structure ProjectConfig where
  Name : String
  Module : String
  Description : String
  License : String
  Author : String
  «Type» : ProjectType
  UseCmd : Bool
  UseInternal : Bool
  UsePkg : Bool
  UseTest : Bool
  UseDocs : Bool
  CreateReadme : Bool
  CreateLicense : Bool
  CreateMakefile : Bool
  UseLinters : Bool
  UsePreCommitHooks : Bool
  UseGitHooks : Bool
  UseCobra : Bool
  UseViper : Bool
  UseGin : Bool
  UseGitHubActions : Bool
deriving DecidableEq, Repr

/-- NewDefaultProjectConfig from `pkg/config`. -/
def NewDefaultProjectConfig : ProjectConfig where
  Name := "my-project"
  Module := "github.com/username/my-project"
  Description := "A Go project"
  License := "MIT"
  Author := ""
  «Type» := TypeDefault
  UseCmd := true
  UseInternal := true
  UsePkg := true
  UseTest := true
  UseDocs := true
  CreateReadme := true
  CreateLicense := true
  CreateMakefile := true
  UseLinters := true
  UsePreCommitHooks := true
  UseGitHooks := true
  UseCobra := false
  UseViper := false
  UseGin := false
  UseGitHubActions := true

/-- NewCLIProjectConfig from `pkg/config`. -/
def NewCLIProjectConfig : ProjectConfig :=
  { NewDefaultProjectConfig with «Type» := TypeCLI, UseCobra := true, UseViper := true }

/-- NewAPIProjectConfig from `pkg/config`. -/
def NewAPIProjectConfig : ProjectConfig :=
  { NewDefaultProjectConfig with «Type» := TypeAPI, UseGin := true }

/-- NewLibraryProjectConfig from `pkg/config`. -/
def NewLibraryProjectConfig : ProjectConfig :=
  { NewDefaultProjectConfig with «Type» := TypeLibrary, UseCmd := false }

/-- GetProjectConfigForType from `pkg/config`. -/
def GetProjectConfigForType (projType : ProjectType) : ProjectConfig :=
  if projType = TypeCLI then NewCLIProjectConfig
  else if projType = TypeAPI then NewAPIProjectConfig
  else if projType = TypeLibrary then NewLibraryProjectConfig
  else NewDefaultProjectConfig

/-! The yaml document model used by Load/Save -/

/-- A scalar value in a structured config document. -/
inductive YamlVal where
  | str (s : String)
  | bool (b : Bool)
deriving DecidableEq, Repr

/-- A structured config document: ordered key/value pairs. -/
abbrev YamlDoc := List (String × YamlVal)

/-- Content stored at a path in the config-model file system: either a
well-formed structured document or malformed text. -/
inductive FileData where
  | yaml (d : YamlDoc)
  | malformed
deriving DecidableEq, Repr

/-- File system seen by Load/Save: an association list from paths to file
data, most recent write first. -/
abbrev ConfigFS := List (String × FileData)

/-- Errors LoadConfigFromFile can return: read failure of a missing file, or
a yaml parse failure. -/
inductive LoadError where
  | notFound
  | parseError
deriving DecidableEq, Repr

/-- Marshalling of a ProjectConfig, one key per struct field in declaration
order, using the yaml tag of the field as the key (yaml.Marshal). -/
def encodeConfig (c : ProjectConfig) : YamlDoc :=
  [("name", .str c.Name),
   ("module", .str c.Module),
   ("description", .str c.Description),
   ("license", .str c.License),
   ("author", .str c.Author),
   ("type", .str c.«Type»),
   ("use_cmd", .bool c.UseCmd),
   ("use_internal", .bool c.UseInternal),
   ("use_pkg", .bool c.UsePkg),
   ("use_test", .bool c.UseTest),
   ("use_docs", .bool c.UseDocs),
   ("create_readme", .bool c.CreateReadme),
   ("create_license", .bool c.CreateLicense),
   ("create_makefile", .bool c.CreateMakefile),
   ("use_linters", .bool c.UseLinters),
   ("use_pre_commit_hooks", .bool c.UsePreCommitHooks),
   ("use_git_hooks", .bool c.UseGitHooks),
   ("use_cobra", .bool c.UseCobra),
   ("use_viper", .bool c.UseViper),
   ("use_gin", .bool c.UseGin),
   ("use_github_actions", .bool c.UseGitHubActions)]

/-- Looks up a string-typed key; an absent key yields the zero value "",
matching yaml.Unmarshal into a fresh struct. -/
def lookupStr (d : YamlDoc) (k : String) : String :=
  match d.find? (fun e => e.1 = k) with
  | some (_, .str s) => s
  | _ => ""

/-- Looks up a bool-typed key; an absent key yields the zero value false,
matching yaml.Unmarshal into a fresh struct. -/
def lookupBool (d : YamlDoc) (k : String) : Bool :=
  match d.find? (fun e => e.1 = k) with
  | some (_, .bool b) => b
  | _ => false

/-- Unmarshalling of a well-formed document into a ProjectConfig
(yaml.Unmarshal): each field takes the value at its yaml tag, absent keys
keep the zero value. No enum validation is performed on `type`. -/
def decodeConfig (d : YamlDoc) : ProjectConfig where
  Name := lookupStr d "name"
  Module := lookupStr d "module"
  Description := lookupStr d "description"
  License := lookupStr d "license"
  Author := lookupStr d "author"
  «Type» := lookupStr d "type"
  UseCmd := lookupBool d "use_cmd"
  UseInternal := lookupBool d "use_internal"
  UsePkg := lookupBool d "use_pkg"
  UseTest := lookupBool d "use_test"
  UseDocs := lookupBool d "use_docs"
  CreateReadme := lookupBool d "create_readme"
  CreateLicense := lookupBool d "create_license"
  CreateMakefile := lookupBool d "create_makefile"
  UseLinters := lookupBool d "use_linters"
  UsePreCommitHooks := lookupBool d "use_pre_commit_hooks"
  UseGitHooks := lookupBool d "use_git_hooks"
  UseCobra := lookupBool d "use_cobra"
  UseViper := lookupBool d "use_viper"
  UseGin := lookupBool d "use_gin"
  UseGitHubActions := lookupBool d "use_github_actions"

/-- SaveConfigToFile from `pkg/config`: marshals the config and writes it at
the path (the MkdirAll of the parent directory and the write are assumed to
succeed in this model; the claims about Save/Load concern the round trip). -/
def SaveConfigToFile (cfg : ProjectConfig) (filePath : String) (fs : ConfigFS) : ConfigFS :=
  (filePath, .yaml (encodeConfig cfg)) :: fs

/-- LoadConfigFromFile from `pkg/config`: reading a missing path fails with
a read error, malformed content fails with a parse error, and a well-formed
document is unmarshalled without further validation. -/
def LoadConfigFromFile (filePath : String) (fs : ConfigFS) :
    Except LoadError ProjectConfig :=
  match fs.find? (fun e => e.1 = filePath) with
  | none => .error .notFound
  | some (_, .malformed) => .error .parseError
  | some (_, .yaml d) => .ok (decodeConfig d)

end Gogo

namespace Gogo

/-! Generated file contents (internal/wizard/generator.go)

Go fmt verbs are expanded: %s/%d splice the argument, %q becomes `goQuote`,
%t becomes `boolStr`, %% is a literal percent sign. Contents assembled from
Go raw (backquoted) literals keep their backslash sequences literally. -/

/-- Rendering of one character under the Go %q verb (the escapes relevant to
printable config values; %q also escapes non-printables, not modelled). -/
def goEscapeChar (c : Char) : String :=
  if c.toNat = 92 then "\\\\"
  else if c.toNat = 34 then "\\\""
  else if c = '\n' then "\\n"
  else if c = '\t' then "\\t"
  else String.singleton c

/-- The Go %q verb: a double-quoted, escaped rendering of a string. -/
def goQuote (s : String) : String :=
  "\"" ++ String.join (s.data.map goEscapeChar) ++ "\""

/-- The Go %t verb. -/
def boolStr (b : Bool) : String :=
  if b then "true" else "false"

/-- Content of cmd/<Name>/main.go for a CLI project. -/
def cliMainContent (cfg : ProjectConfig) : String :=
  "package main\n\nimport (\n\t\"fmt\"\n\t\"os\"\n\n\t\"" ++ cfg.Module ++ "/cmd/" ++ cfg.Name
    ++ "/cmd\"\n)\n\nfunc main() \x7b\n\tif err := cmd.Execute(); err != nil \x7b\n\t\tfmt.Fprintln(os.Stderr, err)\n\t\tos.Exit(1)\n\t\x7d\n\x7d\n"

/-- Content of cmd/<Name>/cmd/root.go for a CLI project. -/
def cliRootContent (cfg : ProjectConfig) : String :=
  "package cmd\n\nimport (\n\t\"fmt\"\n\t\"os\"\n\n\t\"github.com/spf13/cobra\"\n\t\"github.com/spf13/viper\"\n)\n\nvar cfgFile string\n\n// rootCmd represents the base command when called without any subcommands\nvar rootCmd = &cobra.Command\x7b\n\tUse:   \"" ++ cfg.Name
    ++ "\",\n\tShort: \"A brief description of your application\",\n\tLong: `A longer description that spans multiple lines and likely contains\nexamples and usage of using your application.`,\n\t// Uncomment the following line if your bare application\n\t// has an action associated with it:\n\t// Run: func(cmd *cobra.Command, args []string) \x7b \x7d,\n\x7d\n\n// Execute adds all child commands to the root command and sets flags appropriately.\n// This is called by main.main(). It only needs to happen once to the rootCmd.\nfunc Execute() error \x7b\n\treturn rootCmd.Execute()\n\x7d\n\nfunc init() \x7b\n\tcobra.OnInitialize(initConfig)\n\n\t// Here you will define your flags and configuration settings.\n\t// Cobra supports persistent flags, which, if defined here,\n\t// will be global for your application.\n\n\trootCmd.PersistentFlags().StringVar(&cfgFile, \"config\", \"\", \"config file (default is $HOME/." ++ cfg.Name
    ++ ".yaml)\")\n\n\t// Cobra also supports local flags, which will only run\n\t// when this action is called directly.\n\trootCmd.Flags().BoolP(\"toggle\", \"t\", false, \"Help message for toggle\")\n\x7d\n\n// initConfig reads in config file and ENV variables if set.\nfunc initConfig() \x7b\n\tif cfgFile != \"\" \x7b\n\t\t// Use config file from the flag.\n\t\tviper.SetConfigFile(cfgFile)\n\t\x7d else \x7b\n\t\t// Find home directory.\n\t\thome, err := os.UserHomeDir()\n\t\tcobra.CheckErr(err)\n\n\t\t// Search config in home directory with name \"." ++ cfg.Name
    ++ "\" (without extension).\n\t\tviper.AddConfigPath(home)\n\t\tviper.SetConfigType(\"yaml\")\n\t\tviper.SetConfigName(\"." ++ cfg.Name
    ++ "\")\n\t\x7d\n\n\tviper.AutomaticEnv() // read in environment variables that match\n\n\t// If a config file is found, read it in.\n\tif err := viper.ReadInConfig(); err == nil \x7b\n\t\tfmt.Fprintln(os.Stderr, \"Using config file:\", viper.ConfigFileUsed())\n\t\x7d\n\x7d\n"

/-- Content of cmd/<Name>/cmd/version.go for a CLI project. -/
def cliVersionContent (cfg : ProjectConfig) : String :=
  "package cmd\n\nimport (\n\t\"fmt\"\n\n\t\"github.com/spf13/cobra\"\n)\n\n// Version information\nvar (\n\tVersion   = \"dev\"\n\tCommit    = \"none\"\n\tBuildDate = \"unknown\"\n)\n\n// versionCmd represents the version command\nvar versionCmd = &cobra.Command\x7b\n\tUse:   \"version\",\n\tShort: \"Print the version number\",\n\tLong:  `Print the version, commit, and build date information for your application.`,\n\tRun: func(cmd *cobra.Command, args []string) \x7b\n\t\tfmt.Printf(\"" ++ cfg.Name
    ++ " version %s (%s) built on %s\\n\", Version, Commit, BuildDate)\n\t\x7d,\n\x7d\n\nfunc init() \x7b\n\trootCmd.AddCommand(versionCmd)\n\x7d\n"

/-- Content of cmd/<Name>/main.go for an API project. -/
def apiMainContent (cfg : ProjectConfig) : String :=
  "package main\n\nimport (\n\t\"log\"\n\n\t\"" ++ cfg.Module ++ "/internal/api\"\n\t\"" ++ cfg.Module
    ++ "/internal/config\"\n)\n\nfunc main() \x7b\n\tcfg, err := config.Load()\n\tif err != nil \x7b\n\t\tlog.Fatalf(\"Failed to load configuration: %v\", err)\n\t\x7d\n\n\tserver := api.NewServer(cfg)\n\tif err := server.Run(); err != nil \x7b\n\t\tlog.Fatalf(\"Failed to start server: %v\", err)\n\t\x7d\n\x7d\n"

/-- Content of internal/config/config.go for an API project (a constant). -/
def apiConfigContent : String :=
  "package config\n\nimport (\n\t\"fmt\"\n\t\"os\"\n\t\"strconv\"\n)\n\n// Config holds the application configuration\ntype Config struct \x7b\n\tServer ServerConfig\n\x7d\n\n// ServerConfig holds the server configuration\ntype ServerConfig struct \x7b\n\tPort int\n\tHost string\n\x7d\n\n// Load loads the configuration from environment variables\nfunc Load() (*Config, error) \x7b\n\tport := 8080\n\tif portStr := os.Getenv(\"PORT\"); portStr != \"\" \x7b\n\t\tvar err error\n\t\tport, err = strconv.Atoi(portStr)\n\t\tif err != nil \x7b\n\t\t\treturn nil, fmt.Errorf(\"invalid PORT: %v\", err)\n\t\t\x7d\n\t\x7d\n\n\thost := \"localhost\"\n\tif hostEnv := os.Getenv(\"HOST\"); hostEnv != \"\" \x7b\n\t\thost = hostEnv\n\t\x7d\n\n\treturn &Config\x7b\n\t\tServer: ServerConfig\x7b\n\t\t\tPort: port,\n\t\t\tHost: host,\n\t\t\x7d,\n\t\x7d, nil\n\x7d\n"

/-- Content of internal/api/server.go for an API project. -/
def apiServerContent (cfg : ProjectConfig) : String :=
  "package api\n\nimport (\n\t\"fmt\"\n\t\"net/http\"\n\n\t\"github.com/gin-gonic/gin\"\n\n\t\"" ++ cfg.Module
    ++ "/internal/config\"\n)\n\n// Server represents the API server\ntype Server struct \x7b\n\trouter *gin.Engine\n\tcfg    *config.Config\n\x7d\n\n// NewServer creates a new API server\nfunc NewServer(cfg *config.Config) *Server \x7b\n\trouter := gin.Default()\n\n\tserver := &Server\x7b\n\t\trouter: router,\n\t\tcfg:    cfg,\n\t\x7d\n\n\tserver.registerRoutes()\n\n\treturn server\n\x7d\n\n// Run starts the server\nfunc (s *Server) Run() error \x7b\n\taddr := fmt.Sprintf(\"%s:%d\", s.cfg.Server.Host, s.cfg.Server.Port)\n\treturn s.router.Run(addr)\n\x7d\n\n// registerRoutes sets up the API routes\nfunc (s *Server) registerRoutes() \x7b\n\ts.router.GET(\"/health\", s.healthCheck)\n\n\tv1 := s.router.Group(\"/api/v1\")\n\t\x7b\n\t\tv1.GET(\"/hello\", s.helloWorld)\n\t\x7d\n\x7d\n\n// healthCheck handles the health check endpoint\nfunc (s *Server) healthCheck(c *gin.Context) \x7b\n\tc.JSON(http.StatusOK, gin.H\x7b\n\t\t\"status\": \"ok\",\n\t\x7d)\n\x7d\n\n// helloWorld handles the hello world endpoint\nfunc (s *Server) helloWorld(c *gin.Context) \x7b\n\tc.JSON(http.StatusOK, gin.H\x7b\n\t\t\"message\": \"Hello, World!\",\n\t\x7d)\n\x7d\n"

/-- Content of pkg/<Name>/<Name>.go for a library project. -/
def libContent (cfg : ProjectConfig) : String :=
  "package " ++ cfg.Name
    ++ "\n\n// Version is the current version of the library\nconst Version = \"0.1.1\"\n\n// Hello returns a greeting message\nfunc Hello(name string) string \x7b\n\tif name == \"\" \x7b\n\t\tname = \"World\"\n\t\x7d\n\treturn \"Hello, \" + name + \"!\"\n\x7d\n"

/-- Content of pkg/<Name>/<Name>_test.go for a library project. -/
def libTestContent (cfg : ProjectConfig) : String :=
  "package " ++ cfg.Name
    ++ "\n\nimport \"testing\"\n\nfunc TestHello(t *testing.T) \x7b\n\ttests := []struct \x7b\n\t\tname     string\n\t\tinput    string\n\t\texpected string\n\t\x7d\x7b\n\t\t\x7b\n\t\t\tname:     \"empty name\",\n\t\t\tinput:    \"\",\n\t\t\texpected: \"Hello, World!\",\n\t\t\x7d,\n\t\t\x7b\n\t\t\tname:     \"with name\",\n\t\t\tinput:    \"Gopher\",\n\t\t\texpected: \"Hello, Gopher!\",\n\t\t\x7d,\n\t\x7d\n\n\tfor _, tt := range tests \x7b\n\t\tt.Run(tt.name, func(t *testing.T) \x7b\n\t\t\tif got := Hello(tt.input); got != tt.expected \x7b\n\t\t\t\tt.Errorf(\"Hello() = %q, want %q\", got, tt.expected)\n\t\t\t\x7d\n\t\t\x7d)\n\t\x7d\n\x7d\n"

/-- Content of the root main.go for a default-type project. -/
def defaultMainContent (cfg : ProjectConfig) : String :=
  "package main\n\nimport \"fmt\"\n\nfunc main() \x7b\n\tfmt.Println(\"Hello from " ++ cfg.Name ++ "!\")\n\x7d\n"

end Gogo

namespace Gogo

/-- Content of the gogo.yaml metadata file (generateConfigFile). Note the
source renders neither the Type field nor UseGin. -/
def configFileContent (cfg : ProjectConfig) (now : String) : String :=
  "# Gogo Project Configuration\n# Generated on: " ++ now
    ++ "\n\n# Project Information\nproject:\n  name: " ++ goQuote cfg.Name
    ++ "\n  module: " ++ goQuote cfg.Module
    ++ "\n  description: " ++ goQuote cfg.Description
    ++ "\n  license: " ++ goQuote cfg.License
    ++ "\n  author: " ++ goQuote cfg.Author
    ++ "\n\n# Project Structure\nstructure:\n  use_cmd: " ++ boolStr cfg.UseCmd
    ++ "\n  use_internal: " ++ boolStr cfg.UseInternal
    ++ "\n  use_pkg: " ++ boolStr cfg.UsePkg
    ++ "\n  use_test: " ++ boolStr cfg.UseTest
    ++ "\n  use_docs: " ++ boolStr cfg.UseDocs
    ++ "\n\n# Generated Files\nfiles:\n  create_readme: " ++ boolStr cfg.CreateReadme
    ++ "\n  create_license: " ++ boolStr cfg.CreateLicense
    ++ "\n  create_makefile: " ++ boolStr cfg.CreateMakefile
    ++ "\n\n# Code Quality\nquality:\n  use_linters: " ++ boolStr cfg.UseLinters
    ++ "\n  use_pre_commit_hooks: " ++ boolStr cfg.UsePreCommitHooks
    ++ "\n  use_git_hooks: " ++ boolStr cfg.UseGitHooks
    ++ "\n\n# Dependencies\ndependencies:\n  use_cobra: " ++ boolStr cfg.UseCobra
    ++ "\n  use_viper: " ++ boolStr cfg.UseViper
    ++ "\n\n# CI/CD\ncicd:\n  use_github_actions: " ++ boolStr cfg.UseGitHubActions
    ++ "\n"

/-- Content of README.md (generateRootFiles), with the make section present
when CreateMakefile is also set. -/
def readmeContent (cfg : ProjectConfig) : String :=
  "# " ++ cfg.Name ++ "\n\n" ++ cfg.Description
    ++ "\n\n## Overview\n\nTODO: Add project overview\n\n## Installation\n\n### Prerequisites\n\n- Go 1.16 or later\n\n### Building from Source\n\n"
    ++ "```bash\n"
    ++ "# Clone the repository\ngit clone " ++ cfg.Module ++ ".git\ncd " ++ cfg.Name
    ++ "\n\n# Build the binary\ngo build -o bin/" ++ cfg.Name.toLower
    ++ "\n\n# Run tests\ngo test ./...\n"
    ++ "```\n\n"
    ++ (if cfg.CreateMakefile then
          "## Using Make\n\nThe project includes a Makefile to simplify common tasks:\n\n```bash\n"
            ++ "# Build the binary\nmake build\n\n# Run tests\nmake test\n\n# Clean build artifacts\nmake clean\n"
            ++ "```\n\nFor more details, run `make help` to see all available commands.\n"
        else "")

/-- The MIT license body from the License switch. -/
def mitLicenseText (year : Int) (author : String) : String :=
  "MIT License\n\nCopyright (c) " ++ toString year ++ " " ++ author
    ++ "\n\nPermission is hereby granted, free of charge, to any person obtaining a copy\nof this software and associated documentation files (the \"Software\"), to deal\nin the Software without restriction, including without limitation the rights\nto use, copy, modify, merge, publish, distribute, sublicense, and/or sell\ncopies of the Software, and to permit persons to whom the Software is\nfurnished to do so, subject to the following conditions:\n\nThe above copyright notice and this permission notice shall be included in all\ncopies or substantial portions of the Software.\n\nTHE SOFTWARE IS PROVIDED \"AS IS\", WITHOUT WARRANTY OF ANY KIND, EXPRESS OR\nIMPLIED, INCLUDING BUT NOT LIMITED TO THE WARRANTIES OF MERCHANTABILITY,\nFITNESS FOR A PARTICULAR PURPOSE AND NONINFRINGEMENT. IN NO EVENT SHALL THE\nAUTHORS OR COPYRIGHT HOLDERS BE LIABLE FOR ANY CLAIM, DAMAGES OR OTHER\nLIABILITY, WHETHER IN AN ACTION OF CONTRACT, TORT OR OTHERWISE, ARISING FROM,\nOUT OF OR IN CONNECTION WITH THE SOFTWARE OR THE USE OR OTHER DEALINGS IN THE\nSOFTWARE.\n"

/-- The generic fallback license body (default case of the License switch). -/
def genericLicenseText (year : Int) (author license : String) : String :=
  "Copyright (c) " ++ toString year ++ " " ++ author
    ++ "\n\nThis project is licensed under the " ++ license
    ++ " License.\nPlease see https://choosealicense.com/licenses/ for more information.\n"

/-- The LICENSE body selected by the License switch. -/
def licenseContent (cfg : ProjectConfig) (year : Int) : String :=
  if cfg.License = "MIT" then mitLicenseText year cfg.Author
  else genericLicenseText year cfg.Author cfg.License

/-- Content of .gitignore (a constant). -/
def gitignoreContent : String :=
  "# Binaries for programs and plugins\n*.exe\n*.exe~\n*.dll\n*.so\n*.dylib\nbin/\n\n# Test binary, built with \x27go test -c\x27\n*.test\n\n# Output of the go coverage tool\n*.out\ncoverage.html\n\n# Dependency directories (remove the comment below to include it)\n# vendor/\n\n# Go workspace file\ngo.work\n\n# IDE specific files\n.idea/\n.vscode/\n*.swp\n*.swo\n\n# OS specific files\n.DS_Store\n.DS_Store?\n._*\n.Spotlight-V100\n.Trashes\nehthumbs.db\nThumbs.db\n"

/-- Content of the Makefile, parameterized only by the lower-cased Name. -/
def makefileContent (cfg : ProjectConfig) : String :=
  ".PHONY: all build clean test\n\n# Binary name\nBINARY_NAME=" ++ cfg.Name.toLower
    ++ "\n# Binary directory\nBIN_DIR=./bin\n\n# Go commands\nGO ?= go\nGOBUILD = $(GO) build\nGOCLEAN = $(GO) clean\nGOTEST = $(GO) test\nGOGET = $(GO) get\n\n# Version info from git\nGIT_COMMIT=$(shell git rev-parse --short HEAD || echo \"unknown\")\nGIT_DIRTY=$(shell test -n \"`git status --porcelain`\" && echo \"+DIRTY\" || echo \"\")\nGIT_TAG=$(shell git describe --tags --abbrev=0 2>/dev/null || echo \"v0.0.0\")\nBUILD_DATE=$(shell date \x27+%Y-%m-%d-%H:%M:%S\x27)\n\n# Get the module name from go.mod\nMODULE_NAME=$(shell grep \"^module\" go.mod | awk \x27\x7bprint $$2\x7d\x27)\n\n# Linker flags\nLDFLAGS=-ldflags \"-X $(MODULE_NAME)/cmd.Version=$(GIT_TAG) \\\n-X $(MODULE_NAME)/cmd.Commit=$(GIT_COMMIT)$(GIT_DIRTY) \\\n-X $(MODULE_NAME)/cmd.BuildDate=$(BUILD_DATE)\"\n\n# Default target (build binary)\nall: build\n\n# Build binary\nbuild:\n\t@echo \"Building $(BINARY_NAME)...\"\n\t@echo \"Git commit: $(GIT_COMMIT)$(GIT_DIRTY)\"\n\t@echo \"Git tag: $(GIT_TAG)\"\n\t@echo \"Build date: $(BUILD_DATE)\"\n\t@mkdir -p $(BIN_DIR)\n\t$(GOBUILD) $(LDFLAGS) -o $(BIN_DIR)/$(BINARY_NAME)\n\t@echo \"Build complete: $(BIN_DIR)/$(BINARY_NAME)\"\n\n# Clean build artifacts\nclean:\n\t@echo \"Cleaning...\"\n\t@$(GOCLEAN)\n\t@rm -rf $(BIN_DIR)\n\t@rm -f coverage.out coverage.html\n\t@echo \"Clean complete\"\n\n# Run tests\ntest:\n\t@echo \"Running tests...\"\n\t$(GOTEST) -v ./...\n\t@echo \"Tests complete\"\n\n# Run tests with coverage\ntest-coverage:\n\t@echo \"Running tests with coverage...\"\n\t$(GOTEST) -v ./... -coverprofile=coverage.out\n\t$(GO) tool cover -html=coverage.out -o coverage.html\n\t@echo \"Coverage report generated at coverage.html\"\n\n# Install dependencies\ndeps:\n\t@echo \"Installing dependencies...\"\n\t$(GOGET) -v ./...\n\t@echo \"Dependencies installed\"\n\n# Lint the code\nlint:\n\t@echo \"Linting code...\"\n\tgolangci-lint run ./...\n\t@echo \"Lint complete\"\n\n# Help target\nhelp:\n\t@echo \"Available targets:\"\n\t@echo \"  all               - Default target, builds the binary\"\n\t@echo \"  build             - Build the binary to $(BIN_DIR)/$(BINARY_NAME)\"\n\t@echo \"  clean             - Clean build artifacts\"\n\t@echo \"  test              - Run tests\"\n\t@echo \"  test-coverage     - Run tests with coverage reporting\"\n\t@echo \"  deps              - Install dependencies\"\n\t@echo \"  lint              - Lint the code\"\n"

/-- Content of go.mod (generateGoMod): the module declaration, then a
require block for Cobra/Viper when either flag is set. -/
def goModContent (cfg : ProjectConfig) : String :=
  "module " ++ cfg.Module ++ "\n\ngo 1.19\n"
    ++ (if cfg.UseCobra || cfg.UseViper then
          "\nrequire (\n"
            ++ (if cfg.UseCobra then "\tgithub.com/spf13/cobra v1.9.1\n" else "")
            ++ (if cfg.UseViper then "\tgithub.com/spf13/viper v1.19.0\n" else "")
            ++ ")\n"
        else "")

/-- The ordered string fragments go.mod is concatenated from, one list entry
per piece the source appends (see goModContent_join). -/
def goModPieces (cfg : ProjectConfig) : List String :=
  ["module " ++ cfg.Module ++ "\n\ngo 1.19\n"]
    ++ (if cfg.UseCobra || cfg.UseViper then
          ["\nrequire (\n"]
            ++ (if cfg.UseCobra then ["\tgithub.com/spf13/cobra v1.9.1\n"] else [])
            ++ (if cfg.UseViper then ["\tgithub.com/spf13/viper v1.19.0\n"] else [])
            ++ [")\n"]
        else [])

/-- Content of .github/workflows/ci.yml (a constant). -/
def ciWorkflowContent : String :=
  "name: CI\n\non:\n  push:\n    branches: [ main ]\n  pull_request:\n    branches: [ main ]\n\njobs:\n  build:\n    runs-on: ubuntu-latest\n    steps:\n    - uses: actions/checkout@v3\n\n    - name: Set up Go\n      uses: actions/setup-go@v4\n      with:\n        go-version: \x271.19\x27\n\n    - name: Build\n      run: go build -v ./...\n\n    - name: Test\n      run: go test -v ./...\n"

/-- Content of .github/workflows/lint.yml (a constant). -/
def lintWorkflowContent : String :=
  "name: Lint\n\non:\n  push:\n    branches: [ main ]\n  pull_request:\n    branches: [ main ]\n\njobs:\n  golangci:\n    name: lint\n    runs-on: ubuntu-latest\n    steps:\n      - uses: actions/checkout@v3\n      - name: golangci-lint\n        uses: golangci/golangci-lint-action@v3\n        with:\n          version: latest\n"

/-- Content of .golangci.yml (generateLinterConfig). -/
def linterConfigContent (cfg : ProjectConfig) : String :=
  "run:\n  timeout: 5m\nlinters:\n  disable-all: true\n  enable:\n    - errcheck\n    - gosimple\n    - govet\n    - ineffassign\n    - staticcheck\n    - unused\n    - gofmt\n    - goimports\n    - gosec\n    - misspell\n    - revive\n    - unused\n    - whitespace\nlinters-settings:\n  goimports:\n    local-prefixes: " ++ cfg.Module
    ++ "\nissues:\n  exclude-rules:\n    - path: _test\\.go\n      linters:\n        - gosec\n"

/-- Content of .pre-commit-config.yaml (generatePreCommitConfig), with the
project-specific local build hook. -/
def preCommitContent (cfg : ProjectConfig) : String :=
  "repos:\n  - repo: https://github.com/pre-commit/pre-commit-hooks\n    rev: v4.5.0\n    hooks:\n      - id: trailing-whitespace\n      - id: end-of-file-fixer\n      - id: check-yaml\n      - id: check-added-large-files\n      - id: check-json\n      - id: check-merge-conflict\n  # Commit message validation for conventional commits\n  - repo: https://github.com/compilerla/conventional-pre-commit\n    rev: v2.1.1\n    hooks:\n      - id: conventional-pre-commit\n        stages: [commit-msg]\n        args: [] # Add custom args here if needed\n  # Primary Go linting and formatting\n  - repo: https://github.com/golangci/golangci-lint\n    rev: v1.64.5\n    hooks:\n      - id: golangci-lint\n        args: [--timeout=5m]\n  # Additional Go tools\n  - repo: https://github.com/dnephin/pre-commit-golang\n    rev: v0.5.1\n    hooks:\n      - id: go-fmt\n      - id: go-mod-tidy\n      - id: go-unit-tests\n  # Local hooks\n  - repo: local\n    hooks:\n      - id: " ++ (cfg.Name.toLower ++ "-build")
    ++ "\n        name: " ++ (cfg.Name.toLower ++ "-build")
    ++ "\n        entry: bash -c \x27go build ./...\x27\n        language: system\n        pass_filenames: false\n        description: Run go build on all packages\n"

/-- Content of .commitlintrc.yaml (a constant). -/
def commitlintContent : String :=
  "# .commitlintrc.yaml\nextends:\n  - conventional\nrules:\n  header-max-length: [2, always, 100]\n  body-max-line-length: [2, always, 100]\n  type-enum:\n    - 2\n    - always\n    - - feat     # A new feature\n      - fix      # A bug fix\n      - docs     # Documentation only changes\n      - style    # Changes that do not affect the meaning of the code\n      - refactor # A code change that neither fixes a bug nor adds a feature\n      - perf     # A code change that improves performance\n      - test     # Adding missing tests or correcting existing tests\n      - build    # Changes that affect the build system or external dependencies\n      - ci       # Changes to CI configuration files and scripts\n      - chore    # Other changes that don\x27t modify src or test files\n      - revert   # Reverts a previous commit\n"

end Gogo

namespace Gogo

/-! The generation engine as an ordered operation trace -/

/-- A relative path below the project root, as the components handed to
filepath.Join ([] is the project root itself). -/
abbrev Path := List String

/-- One file-system side effect of the engine: os.MkdirAll or os.WriteFile. -/
inductive FSOp where
  | mkdirAll (p : Path)
  | write (p : Path) (content : String)
deriving DecidableEq, Repr

/-- A block of operations guarded by a config flag (an `if flag` around the
corresponding calls in the source). -/
def onlyIf (b : Bool) (ops : List FSOp) : List FSOp :=
  if b then ops else []

/-- Operation trace of generateCLICode. -/
def generateCLICode (cfg : ProjectConfig) : List FSOp :=
  [.mkdirAll ["cmd", cfg.Name],
   .write ["cmd", cfg.Name, "main.go"] (cliMainContent cfg),
   .mkdirAll ["cmd", cfg.Name, "cmd"],
   .write ["cmd", cfg.Name, "cmd", "root.go"] (cliRootContent cfg),
   .write ["cmd", cfg.Name, "cmd", "version.go"] (cliVersionContent cfg)]

/-- Operation trace of generateAPICode. -/
def generateAPICode (cfg : ProjectConfig) : List FSOp :=
  [.mkdirAll ["cmd", cfg.Name],
   .write ["cmd", cfg.Name, "main.go"] (apiMainContent cfg),
   .mkdirAll ["internal", "config"],
   .write ["internal", "config", "config.go"] apiConfigContent,
   .mkdirAll ["internal", "api"],
   .write ["internal", "api", "server.go"] (apiServerContent cfg)]

/-- Operation trace of generateLibraryCode. -/
def generateLibraryCode (cfg : ProjectConfig) : List FSOp :=
  [.mkdirAll ["pkg", cfg.Name],
   .write ["pkg", cfg.Name, cfg.Name ++ ".go"] (libContent cfg),
   .write ["pkg", cfg.Name, cfg.Name ++ "_test.go"] (libTestContent cfg)]

/-- Operation trace of generateDefaultCode. -/
def generateDefaultCode (cfg : ProjectConfig) : List FSOp :=
  [.write ["main.go"] (defaultMainContent cfg)]

/-- Operation trace of generateInitialCodeByType: the switch on cfg.Type,
with the default generator for any unrecognized type. -/
def generateInitialCodeByType (cfg : ProjectConfig) : List FSOp :=
  if cfg.«Type» = TypeCLI then generateCLICode cfg
  else if cfg.«Type» = TypeAPI then generateAPICode cfg
  else if cfg.«Type» = TypeLibrary then generateLibraryCode cfg
  else generateDefaultCode cfg

/-- Operation trace of generateConfigFile: one unconditional write of
gogo.yaml. -/
def generateConfigFile (cfg : ProjectConfig) (now : String) : List FSOp :=
  [.write ["gogo.yaml"] (configFileContent cfg now)]

/-- Operation trace of generateRootFiles: gogo.yaml (via generateConfigFile),
then README.md if CreateReadme, LICENSE if CreateLicense and License is not
"None", then .gitignore unconditionally, then Makefile if CreateMakefile. -/
def generateRootFiles (cfg : ProjectConfig) (now : String) (year : Int) : List FSOp :=
  generateConfigFile cfg now
    ++ onlyIf cfg.CreateReadme [.write ["README.md"] (readmeContent cfg)]
    ++ onlyIf (cfg.CreateLicense && cfg.License != "None")
        [.write ["LICENSE"] (licenseContent cfg year)]
    ++ [.write [".gitignore"] gitignoreContent]
    ++ onlyIf cfg.CreateMakefile [.write ["Makefile"] (makefileContent cfg)]

/-- The structural-directory loop of GenerateProject for one directory:
MkdirAll plus the .gitkeep placeholder write. -/
def dirOps (d : String) : List FSOp :=
  [.mkdirAll [d], .write [d, ".gitkeep"] ""]

/-- Operation trace of the structural-directory step of GenerateProject, in
the order the dirs slice is built: cmd, internal, pkg, docs, test. -/
def structureDirOps (cfg : ProjectConfig) : List FSOp :=
  onlyIf cfg.UseCmd (dirOps "cmd")
    ++ onlyIf cfg.UseInternal (dirOps "internal")
    ++ onlyIf cfg.UsePkg (dirOps "pkg")
    ++ onlyIf cfg.UseDocs (dirOps "docs")
    ++ onlyIf cfg.UseTest (dirOps "test")

/-- Operation trace of generateGoMod. -/
def generateGoMod (cfg : ProjectConfig) : List FSOp :=
  [.write ["go.mod"] (goModContent cfg)]

/-- Operation trace of generateGitHubWorkflows: the workflow directory, the
CI workflow, and the lint workflow when UseLinters is set. -/
def generateGitHubWorkflows (cfg : ProjectConfig) : List FSOp :=
  [.mkdirAll [".github", "workflows"],
   .write [".github", "workflows", "ci.yml"] ciWorkflowContent]
    ++ onlyIf cfg.UseLinters
        [.write [".github", "workflows", "lint.yml"] lintWorkflowContent]

/-- Operation trace of generateLinterConfig. -/
def generateLinterConfig (cfg : ProjectConfig) : List FSOp :=
  [.write [".golangci.yml"] (linterConfigContent cfg)]

/-- Operation trace of generatePreCommitConfig: the pre-commit config, then
the commitlint config. -/
def generatePreCommitConfig (cfg : ProjectConfig) : List FSOp :=
  [.write [".pre-commit-config.yaml"] (preCommitContent cfg),
   .write [".commitlintrc.yaml"] commitlintContent]

/-- Operation trace of GenerateProject: the project root directory, root
files, structural directories, type-dispatched initial code, the (second)
gogo.yaml write, go.mod, and the three flag-gated tooling steps, in source
order. -/
def GenerateProject (cfg : ProjectConfig) (now : String) (year : Int) : List FSOp :=
  [.mkdirAll []]
    ++ generateRootFiles cfg now year
    ++ structureDirOps cfg
    ++ generateInitialCodeByType cfg
    ++ generateConfigFile cfg now
    ++ generateGoMod cfg
    ++ onlyIf cfg.UseGitHubActions (generateGitHubWorkflows cfg)
    ++ onlyIf cfg.UseLinters (generateLinterConfig cfg)
    ++ onlyIf cfg.UsePreCommitHooks (generatePreCommitConfig cfg)

/-- The ordered (path, content) write list of an operation trace. -/
def writesOf (ops : List FSOp) : List (Path × String) :=
  ops.filterMap fun op =>
    match op with
    | .write p c => some (p, c)
    | .mkdirAll _ => none

/-- The ordered list of written paths of an operation trace. -/
def writePaths (ops : List FSOp) : List Path :=
  (writesOf ops).map Prod.fst

/-- Whether running an operation trace creates the top-level directory `d`:
some MkdirAll path starts with component `d` (every write in a trace is
preceded by the MkdirAll of its directory, so mkdir operations alone decide
which directories exist after a successful run). -/
def dirCreated (ops : List FSOp) (d : String) : Bool :=
  ops.any fun op =>
    match op with
    | .mkdirAll p => p.head? = some d
    | .write _ _ => false

/-- Runs an operation trace against an environment that may fail any single
operation (`oracle op = some e` means the call fails with error e). Returns
the operations actually performed, in order, and the first error if any;
matching the source, the first failure aborts everything after it. -/
def runOps (ops : List FSOp) (oracle : FSOp → Option String) :
    List FSOp × Option String :=
  match ops with
  | [] => ([], none)
  | op :: rest =>
    match oracle op with
    | some e => ([], some e)
    | none =>
      let r := runOps rest oracle
      (op :: r.1, r.2)

end Gogo

namespace Gogo

/-! Shared helper lemmas -/

theorem string_ext {a b : String} (h : a.data = b.data) : a = b := by
  cases a; cases b; exact congrArg String.mk h

theorem string_ne_of_data_ne {a b : String} (h : a.data.head? ≠ b.data.head?) :
    a ≠ b :=
  fun e => h (by rw [e])

@[simp] theorem go_ne_testgo (n : String) : (n ++ ".go" = n ++ "_test.go") ↔ False := by
  refine ⟨fun h => ?_, False.elim⟩
  have hl := congrArg String.length h
  simp only [String.length_append] at hl
  rw [show (".go" : String).length = 3 from rfl,
      show ("_test.go" : String).length = 8 from rfl] at hl
  omega

theorem writesOf_append (l₁ l₂ : List FSOp) :
    writesOf (l₁ ++ l₂) = writesOf l₁ ++ writesOf l₂ := by
  simp [writesOf]

theorem writePaths_append (l₁ l₂ : List FSOp) :
    writePaths (l₁ ++ l₂) = writePaths l₁ ++ writePaths l₂ := by
  simp [writePaths, writesOf_append]

theorem writePaths_onlyIf (b : Bool) (l : List FSOp) :
    writePaths (onlyIf b l) = if b then writePaths l else [] := by
  cases b <;> simp [onlyIf, writePaths, writesOf]

theorem writesOf_onlyIf (b : Bool) (l : List FSOp) :
    writesOf (onlyIf b l) = if b then writesOf l else [] := by
  cases b <;> simp [onlyIf, writesOf]

theorem dirCreated_append (l₁ l₂ : List FSOp) (d : String) :
    dirCreated (l₁ ++ l₂) d = (dirCreated l₁ d || dirCreated l₂ d) := by
  simp [dirCreated]

theorem dirCreated_onlyIf (b : Bool) (l : List FSOp) (d : String) :
    dirCreated (onlyIf b l) d = (b && dirCreated l d) := by
  cases b <;> simp [onlyIf, dirCreated]

theorem runOps_all_ok {oracle : FSOp → Option String} :
    ∀ {ops : List FSOp}, (∀ op ∈ ops, oracle op = none) →
      runOps ops oracle = (ops, none) := by
  intro ops
  induction ops with
  | nil => intro _; rfl
  | cons op rest ih =>
    intro h
    have h₁ : oracle op = none := h op (by simp)
    have h₂ := ih (fun o ho => h o (by simp [ho]))
    simp [runOps, h₁, h₂]

theorem runOps_first_fail {oracle : FSOp → Option String} {e : String} :
    ∀ (pre : List FSOp) (op : FSOp) (post : List FSOp),
      (∀ o ∈ pre, oracle o = none) → oracle op = some e →
      runOps (pre ++ op :: post) oracle = (pre, some e) := by
  intro pre
  induction pre with
  | nil => intro op post _ hop; simp [runOps, hop]
  | cons o rest ih =>
    intro op post hpre hop
    have h₁ : oracle o = none := hpre o (by simp)
    have h₂ := ih op post (fun x hx => hpre x (by simp [hx])) hop
    simp [runOps, h₁, h₂]

/-! Claim theorems -/

/-- C2: for every project type, the preset constructor returns the default
config with exactly the deltas of that type applied and Type set accordingly
(cli: UseCobra and UseViper; api: UseGin; library: UseCmd off), and any
unknown type yields the unchanged default config, whose Type is "default". -/
theorem configForType_presets :
    GetProjectConfigForType TypeCLI
        = { NewDefaultProjectConfig with «Type» := TypeCLI, UseCobra := true, UseViper := true }
    ∧ GetProjectConfigForType TypeAPI
        = { NewDefaultProjectConfig with «Type» := TypeAPI, UseGin := true }
    ∧ GetProjectConfigForType TypeLibrary
        = { NewDefaultProjectConfig with «Type» := TypeLibrary, UseCmd := false }
    ∧ GetProjectConfigForType TypeDefault = NewDefaultProjectConfig
    ∧ NewDefaultProjectConfig.«Type» = TypeDefault
    ∧ ∀ t : ProjectType, t ≠ TypeCLI → t ≠ TypeAPI → t ≠ TypeLibrary →
        GetProjectConfigForType t = NewDefaultProjectConfig := by
  refine ⟨by decide, by decide, by decide, by decide, rfl, ?_⟩
  intro t h₁ h₂ h₃
  simp [GetProjectConfigForType, h₁, h₂, h₃]

/-- C2 witness: the unknown type "webapp" yields the unchanged default. -/
theorem configForType_presets_witness :
    GetProjectConfigForType "webapp" = NewDefaultProjectConfig :=
  configForType_presets.2.2.2.2.2 "webapp" (by decide) (by decide) (by decide)

/-- C7: saving any config to a path and loading that path back succeeds and
returns a config equal to the saved one in every field. -/
theorem saveLoad_roundTrip (c : ProjectConfig) (p : String) (fs : ConfigFS) :
    LoadConfigFromFile p (SaveConfigToFile c p fs) = .ok c := by
  have hfind : (((p, FileData.yaml (encodeConfig c)) :: fs).find? (fun e => e.1 = p))
      = some (p, .yaml (encodeConfig c)) := by
    simp [List.find?]
  have hdec : decodeConfig (encodeConfig c) = c := by
    cases c; rfl
  simp [LoadConfigFromFile, SaveConfigToFile, hfind, hdec]

/-- C10: for every config, running the GenerateProject operation trace
against any environment is fail-fast: if every operation succeeds the run
performs the whole trace and returns success, and if some operation fails
the run returns that first error, having performed exactly the operations
before it and none after (no rollback, no swallowed error). -/
theorem generateProject_failFast (cfg : ProjectConfig) (now : String) (year : Int)
    (oracle : FSOp → Option String) :
    ((∀ op ∈ GenerateProject cfg now year, oracle op = none) →
      runOps (GenerateProject cfg now year) oracle
        = (GenerateProject cfg now year, none))
    ∧ (∀ (pre : List FSOp) (op : FSOp) (e : String) (post : List FSOp),
        GenerateProject cfg now year = pre ++ op :: post →
        (∀ o ∈ pre, oracle o = none) → oracle op = some e →
        runOps (GenerateProject cfg now year) oracle = (pre, some e)) := by
  constructor
  · exact runOps_all_ok
  · intro pre op e post hsplit hpre hop
    rw [hsplit]
    exact runOps_first_fail pre op post hpre hop

/-- C10 witness: with an environment where every operation succeeds, the
run of the default config performs the full trace and reports no error. -/
theorem generateProject_failFast_witness :
    runOps (GenerateProject NewDefaultProjectConfig "2025-01-01T00:00:00Z" 2025)
        (fun _ => none)
      = (GenerateProject NewDefaultProjectConfig "2025-01-01T00:00:00Z" 2025, none) :=
  (generateProject_failFast NewDefaultProjectConfig "2025-01-01T00:00:00Z" 2025
      (fun _ => none)).1 (fun _ _ => rfl)

end Gogo

namespace Gogo

/-- C8 counterexample: loading a well-formed config document whose type
field holds "webapp" (outside the four known types) succeeds, but the
Type field of the returned config is "webapp", not "default" as the claim
states — LoadConfigFromFile performs no enum coercion. -/
theorem load_unknownType_counterexample :
    LoadConfigFromFile "gogo.yaml"
        [("gogo.yaml", .yaml (encodeConfig { NewDefaultProjectConfig with «Type» := "webapp" }))]
      = .ok { NewDefaultProjectConfig with «Type» := "webapp" }
    ∧ ({ NewDefaultProjectConfig with «Type» := "webapp" } : ProjectConfig).«Type» ≠ "default" := by
  constructor
  · rfl
  · decide

/-- C8 amended: loading a well-formed document succeeds whatever string its
type field holds, and the Type field of the returned config is that string
verbatim; the fall-back to the default behaviour for an unrecognized type
happens later, at generation dispatch, where generateInitialCodeByType runs
the default-type generator for any type outside cli/api/library. -/
theorem load_unknownType_amended :
    (∀ (d : YamlDoc) (v : String) (p : String) (fs : ConfigFS),
      lookupStr d "type" = v →
      LoadConfigFromFile p ((p, .yaml d) :: fs) = .ok (decodeConfig d)
        ∧ (decodeConfig d).«Type» = v)
    ∧ (∀ cfg : ProjectConfig,
        cfg.«Type» ≠ TypeCLI → cfg.«Type» ≠ TypeAPI → cfg.«Type» ≠ TypeLibrary →
        generateInitialCodeByType cfg = generateDefaultCode cfg) := by
  constructor
  · intro d v p fs hv
    constructor
    · simp [LoadConfigFromFile, List.find?]
    · exact hv
  · intro cfg h₁ h₂ h₃
    simp [generateInitialCodeByType, h₁, h₂, h₃]

/-- C8 witness: a document with type "webapp" loads with Type = "webapp",
and a config with that type dispatches to the default code generator. -/
theorem load_unknownType_amended_witness :
    (decodeConfig (encodeConfig { NewDefaultProjectConfig with «Type» := "webapp" })).«Type»
        = "webapp"
    ∧ generateInitialCodeByType { NewDefaultProjectConfig with «Type» := "webapp" }
        = generateDefaultCode { NewDefaultProjectConfig with «Type» := "webapp" } :=
  ⟨(load_unknownType_amended.1
      (encodeConfig { NewDefaultProjectConfig with «Type» := "webapp" }) "webapp" "p" []
      (by decide)).2,
   load_unknownType_amended.2 _ (by decide) (by decide) (by decide)⟩

end Gogo

namespace Gogo

@[simp] theorem writePaths_nil : writePaths [] = [] := rfl

@[simp] theorem writePaths_write (p : Path) (c : String) (rest : List FSOp) :
    writePaths (.write p c :: rest) = p :: writePaths rest := rfl

@[simp] theorem writePaths_mkdir (p : Path) (rest : List FSOp) :
    writePaths (.mkdirAll p :: rest) = writePaths rest := rfl

theorem mem_ite_nil {α : Type} {a : α} {b : Prop} [Decidable b] {l : List α} :
    a ∈ (if b then l else []) ↔ b ∧ a ∈ l := by
  split <;> simp_all

@[simp] theorem dirCreated_nil (d : String) : dirCreated [] d = false := rfl

@[simp] theorem dirCreated_write (p : Path) (c : String) (rest : List FSOp) (d : String) :
    dirCreated (.write p c :: rest) d = dirCreated rest d := by
  simp [dirCreated]

@[simp] theorem dirCreated_mkdir (p : Path) (rest : List FSOp) (d : String) :
    dirCreated (.mkdirAll p :: rest) d
      = (decide (p.head? = some d) || dirCreated rest d) := by
  simp [dirCreated]

/-- C1: the type dispatch is mutually exclusive: a run of a cli config writes
the command-root file and the version-command file and no API server file;
a run of an api config writes the server file and the config-loader file and no
command-root file; a run of a library config writes the library source file and
its test file and no main.go entry point under cmd/. -/
theorem generateProject_typeDispatch (cfg : ProjectConfig) (now : String) (year : Int) :
    (cfg.«Type» = TypeCLI →
      ["cmd", cfg.Name, "cmd", "root.go"] ∈ writePaths (GenerateProject cfg now year)
      ∧ ["cmd", cfg.Name, "cmd", "version.go"] ∈ writePaths (GenerateProject cfg now year)
      ∧ ["internal", "api", "server.go"] ∉ writePaths (GenerateProject cfg now year))
    ∧ (cfg.«Type» = TypeAPI →
      ["internal", "api", "server.go"] ∈ writePaths (GenerateProject cfg now year)
      ∧ ["internal", "config", "config.go"] ∈ writePaths (GenerateProject cfg now year)
      ∧ ∀ n : String, ["cmd", n, "cmd", "root.go"] ∉ writePaths (GenerateProject cfg now year))
    ∧ (cfg.«Type» = TypeLibrary →
      ["pkg", cfg.Name, cfg.Name ++ ".go"] ∈ writePaths (GenerateProject cfg now year)
      ∧ ["pkg", cfg.Name, cfg.Name ++ "_test.go"] ∈ writePaths (GenerateProject cfg now year)
      ∧ ∀ n : String, ["cmd", n, "main.go"] ∉ writePaths (GenerateProject cfg now year)) := by
  refine ⟨fun h => ⟨?_, ?_, ?_⟩, fun h => ⟨?_, ?_, fun n => ?_⟩, fun h => ⟨?_, ?_, fun n => ?_⟩⟩ <;>
  simp [GenerateProject, generateRootFiles, generateConfigFile, structureDirOps,
    generateInitialCodeByType, h, generateCLICode, generateAPICode, generateLibraryCode,
    generateGoMod, generateGitHubWorkflows, generateLinterConfig,
    generatePreCommitConfig, dirOps, writePaths_append, writePaths_onlyIf, mem_ite_nil,
    TypeCLI, TypeAPI, TypeLibrary]

/-- C1 witness: instantiated at the CLI preset config. -/
theorem generateProject_typeDispatch_witness :
    ["cmd", NewCLIProjectConfig.Name, "cmd", "root.go"]
        ∈ writePaths (GenerateProject NewCLIProjectConfig "t" 2025)
    ∧ ["cmd", NewCLIProjectConfig.Name, "cmd", "version.go"]
        ∈ writePaths (GenerateProject NewCLIProjectConfig "t" 2025)
    ∧ ["internal", "api", "server.go"]
        ∉ writePaths (GenerateProject NewCLIProjectConfig "t" 2025) :=
  (generateProject_typeDispatch NewCLIProjectConfig "t" 2025).1 rfl

/-- C4 counterexample: a CLI-type config with UseCmd=false still gets a cmd
directory (generateCLICode creates cmd/<Name> unconditionally), refuting the
"directory exists iff its flag is set" claim. -/
theorem structureFlags_counterexample :
    ({ NewCLIProjectConfig with UseCmd := false } : ProjectConfig).UseCmd = false
    ∧ dirCreated (GenerateProject { NewCLIProjectConfig with UseCmd := false } "t" 2025) "cmd"
        = true := by
  exact ⟨rfl, by decide⟩

/-- C4 amended: after a successful run, docs and test exist iff their flags
are set; cmd, internal and pkg exist iff their flag is set or the type
generator creates them (cli and api create cmd, api creates internal,
library creates pkg). In particular each flag still forces its directory. -/
theorem structureFlags_amended (cfg : ProjectConfig) (now : String) (year : Int) :
    dirCreated (GenerateProject cfg now year) "cmd"
      = (cfg.UseCmd || decide (cfg.«Type» = TypeCLI) || decide (cfg.«Type» = TypeAPI))
    ∧ dirCreated (GenerateProject cfg now year) "internal"
      = (cfg.UseInternal || decide (cfg.«Type» = TypeAPI))
    ∧ dirCreated (GenerateProject cfg now year) "pkg"
      = (cfg.UsePkg || decide (cfg.«Type» = TypeLibrary))
    ∧ dirCreated (GenerateProject cfg now year) "docs" = cfg.UseDocs
    ∧ dirCreated (GenerateProject cfg now year) "test" = cfg.UseTest := by
  refine ⟨?_, ?_, ?_, ?_, ?_⟩ <;>
  · simp only [GenerateProject, generateInitialCodeByType]
    split_ifs with h1 h2 h3 <;>
    simp_all [generateRootFiles, generateConfigFile, structureDirOps,
      generateCLICode, generateAPICode, generateLibraryCode, generateDefaultCode,
      generateGoMod, generateGitHubWorkflows, generateLinterConfig,
      generatePreCommitConfig, dirOps, dirCreated_append, dirCreated_onlyIf,
      TypeCLI, TypeAPI, TypeLibrary]

end Gogo

namespace Gogo

@[simp] theorem writesOf_nil : writesOf [] = [] := rfl

@[simp] theorem writesOf_write (p : Path) (c : String) (rest : List FSOp) :
    writesOf (.write p c :: rest) = (p, c) :: writesOf rest := rfl

@[simp] theorem writesOf_mkdir (p : Path) (rest : List FSOp) :
    writesOf (.mkdirAll p :: rest) = writesOf rest := rfl

/-- C5: LICENSE generation. With CreateLicense=false no LICENSE file is
written; with License="None" no LICENSE file is written regardless of the
toggle; with CreateLicense=true and License="MIT" the LICENSE write carries
the MIT template; with CreateLicense=true and any other License value the
LICENSE write carries the generic choosealicense.com fallback template,
which contains the current year and the Author and differs from the MIT
template. -/
theorem license_generation (cfg : ProjectConfig) (now : String) (year : Int) :
    (cfg.CreateLicense = false → ["LICENSE"] ∉ writePaths (GenerateProject cfg now year))
    ∧ (cfg.License = "None" → ["LICENSE"] ∉ writePaths (GenerateProject cfg now year))
    ∧ (cfg.CreateLicense = true → cfg.License = "MIT" →
        (["LICENSE"], mitLicenseText year cfg.Author)
          ∈ writesOf (GenerateProject cfg now year))
    ∧ (cfg.CreateLicense = true → cfg.License ≠ "None" → cfg.License ≠ "MIT" →
        (["LICENSE"], genericLicenseText year cfg.Author cfg.License)
            ∈ writesOf (GenerateProject cfg now year)
        ∧ (∃ a b : String,
            genericLicenseText year cfg.Author cfg.License = a ++ (cfg.Author ++ b))
        ∧ (∃ a b : String,
            genericLicenseText year cfg.Author cfg.License = a ++ (toString year ++ b))
        ∧ genericLicenseText year cfg.Author cfg.License ≠ mitLicenseText year cfg.Author) := by
  refine ⟨fun h => ?_, fun h => ?_, fun h hm => ?_, fun h hn hm => ⟨?_, ?_, ?_, ?_⟩⟩
  · simp only [GenerateProject, generateInitialCodeByType]
    split_ifs with h1 h2 h3 <;>
    simp_all [generateRootFiles, generateConfigFile, structureDirOps,
      generateCLICode, generateAPICode, generateLibraryCode, generateDefaultCode,
      generateGoMod, generateGitHubWorkflows, generateLinterConfig,
      generatePreCommitConfig, dirOps, writePaths_append, writePaths_onlyIf, mem_ite_nil]
  · simp only [GenerateProject, generateInitialCodeByType]
    split_ifs with h1 h2 h3 <;>
    simp_all [generateRootFiles, generateConfigFile, structureDirOps,
      generateCLICode, generateAPICode, generateLibraryCode, generateDefaultCode,
      generateGoMod, generateGitHubWorkflows, generateLinterConfig,
      generatePreCommitConfig, dirOps, writePaths_append, writePaths_onlyIf, mem_ite_nil]
  · simp [GenerateProject, generateRootFiles, generateConfigFile, structureDirOps,
      generateGoMod, generateGitHubWorkflows, generateLinterConfig,
      generatePreCommitConfig, dirOps, writesOf_append, writesOf_onlyIf, mem_ite_nil,
      h, hm, licenseContent]
  · simp [GenerateProject, generateRootFiles, generateConfigFile, structureDirOps,
      generateGoMod, generateGitHubWorkflows, generateLinterConfig,
      generatePreCommitConfig, dirOps, writesOf_append, writesOf_onlyIf, mem_ite_nil,
      h, hn, hm, licenseContent]
  · exact ⟨"Copyright (c) " ++ toString year ++ " ",
      "\n\nThis project is licensed under the " ++ cfg.License
        ++ " License.\nPlease see https://choosealicense.com/licenses/ for more information.\n",
      by simp [genericLicenseText, String.append_assoc]⟩
  · exact ⟨"Copyright (c) ",
      " " ++ cfg.Author ++ "\n\nThis project is licensed under the " ++ cfg.License
        ++ " License.\nPlease see https://choosealicense.com/licenses/ for more information.\n",
      by simp [genericLicenseText, String.append_assoc]⟩
  · apply string_ne_of_data_ne
    rw [show (genericLicenseText year cfg.Author cfg.License).data.head? = some 'C' from rfl,
        show (mitLicenseText year cfg.Author).data.head? = some 'M' from rfl]
    simp

/-- C5 witness: instantiated at an Apache-2.0 config (unrecognized by the
License switch) built from the default preset. -/
theorem license_generation_witness :
    (["LICENSE"],
        genericLicenseText 2025 ({ NewDefaultProjectConfig with License := "Apache-2.0" } : ProjectConfig).Author "Apache-2.0")
        ∈ writesOf (GenerateProject { NewDefaultProjectConfig with License := "Apache-2.0" } "t" 2025)
    ∧ genericLicenseText 2025 ({ NewDefaultProjectConfig with License := "Apache-2.0" } : ProjectConfig).Author "Apache-2.0"
        ≠ mitLicenseText 2025 ({ NewDefaultProjectConfig with License := "Apache-2.0" } : ProjectConfig).Author := by
  have h := (license_generation { NewDefaultProjectConfig with License := "Apache-2.0" } "t" 2025).2.2.2
    rfl (by decide) (by decide)
  exact ⟨h.1, h.2.2.2⟩

end Gogo

namespace Gogo

@[simp] theorem cobra_ne_module (m : String) :
    (("\tgithub.com/spf13/cobra v1.9.1\n" : String) = "module " ++ m ++ "\n\ngo 1.19\n")
      ↔ False := by
  refine ⟨fun h => ?_, False.elim⟩
  refine string_ne_of_data_ne ?_ h
  rw [show ("\tgithub.com/spf13/cobra v1.9.1\n" : String).data.head? = some '\t' from rfl,
      show ("module " ++ m ++ "\n\ngo 1.19\n").data.head? = some 'm' from rfl]
  simp

@[simp] theorem viper_ne_module (m : String) :
    (("\tgithub.com/spf13/viper v1.19.0\n" : String) = "module " ++ m ++ "\n\ngo 1.19\n")
      ↔ False := by
  refine ⟨fun h => ?_, False.elim⟩
  refine string_ne_of_data_ne ?_ h
  rw [show ("\tgithub.com/spf13/viper v1.19.0\n" : String).data.head? = some '\t' from rfl,
      show ("module " ++ m ++ "\n\ngo 1.19\n").data.head? = some 'm' from rfl]
  simp

/-- Whether the first character sequence is a prefix of the second. -/
def startsWithSeq : List Char → List Char → Bool
  | [], _ => true
  | _ :: _, [] => false
  | a :: as, b :: bs => a == b && startsWithSeq as bs

/-- Whether the first character sequence occurs contiguously anywhere in the
second. -/
def containsSeq (needle : List Char) : List Char → Bool
  | [] => startsWithSeq needle []
  | b :: bs => startsWithSeq needle (b :: bs) || containsSeq needle bs

/-- The api preset with a concrete module path, used to exercise go.mod. -/
def apiGoModDemo : ProjectConfig :=
  { GetProjectConfigForType TypeAPI with Module := "example.com/demo" }

/-- C6 counterexample: for the api preset (UseGin=true) no piece of the
generated go.mod mentions the Gin module path at all, so no Gin dependency
declaration is gated in — refuting the claimed "Gin declaration iff UseGin".
-/
theorem goMod_gin_counterexample :
    apiGoModDemo.UseGin = true
    ∧ (goModPieces apiGoModDemo).all
        (fun s => !(containsSeq "github.com/gin-gonic/gin".data s.data)) = true := by
  exact ⟨by decide, by decide⟩

/-- C6 amended: go.mod is written unconditionally with the module
declaration, the Cobra pin appears iff UseCobra, the Viper pin appears iff
UseViper, and no Gin declaration is ever emitted: UseGin does not influence
go.mod, and every piece of go.mod is one of the module declaration, the
require-block delimiters, and the Cobra/Viper pins. -/
theorem goMod_dependency_gating (cfg : ProjectConfig) (now : String) (year : Int) :
    (["go.mod"], goModContent cfg) ∈ writesOf (GenerateProject cfg now year)
    ∧ goModContent cfg = String.join (goModPieces cfg)
    ∧ ("module " ++ cfg.Module ++ "\n\ngo 1.19\n") ∈ goModPieces cfg
    ∧ ("\tgithub.com/spf13/cobra v1.9.1\n" ∈ goModPieces cfg ↔ cfg.UseCobra = true)
    ∧ ("\tgithub.com/spf13/viper v1.19.0\n" ∈ goModPieces cfg ↔ cfg.UseViper = true)
    ∧ goModPieces { cfg with UseGin := true } = goModPieces { cfg with UseGin := false }
    ∧ ∀ s ∈ goModPieces cfg,
        s = ("module " ++ cfg.Module ++ "\n\ngo 1.19\n") ∨ s = "\nrequire (\n"
          ∨ s = "\tgithub.com/spf13/cobra v1.9.1\n"
          ∨ s = "\tgithub.com/spf13/viper v1.19.0\n" ∨ s = ")\n" := by
  refine ⟨?_, ?_, ?_, ?_, ?_, rfl, ?_⟩
  · simp [GenerateProject, generateRootFiles, generateConfigFile, structureDirOps,
      generateGoMod, generateGitHubWorkflows, generateLinterConfig,
      generatePreCommitConfig, dirOps, writesOf_append, writesOf_onlyIf, mem_ite_nil]
  · cases hc : cfg.UseCobra <;> cases hv : cfg.UseViper <;>
      simp [goModContent, goModPieces, hc, hv, String.join, String.append_assoc]
  · cases hc : cfg.UseCobra <;> cases hv : cfg.UseViper <;>
      simp [goModPieces, hc, hv]
  · cases hc : cfg.UseCobra <;> cases hv : cfg.UseViper <;>
      simp [goModPieces, hc, hv]
  · cases hc : cfg.UseCobra <;> cases hv : cfg.UseViper <;>
      simp [goModPieces, hc, hv]
  · intro s hs
    cases hc : cfg.UseCobra <;> cases hv : cfg.UseViper <;>
      simp [goModPieces, hc, hv] at hs <;> tauto

/-- C6 witness: the shapes clause applied to the module piece of the api demo config
piece. -/
theorem goMod_dependency_gating_witness :
    ("module " ++ apiGoModDemo.Module ++ "\n\ngo 1.19\n")
        = ("module " ++ apiGoModDemo.Module ++ "\n\ngo 1.19\n") ∨
      ("module " ++ apiGoModDemo.Module ++ "\n\ngo 1.19\n") = "\nrequire (\n"
        ∨ ("module " ++ apiGoModDemo.Module ++ "\n\ngo 1.19\n") = "\tgithub.com/spf13/cobra v1.9.1\n"
        ∨ ("module " ++ apiGoModDemo.Module ++ "\n\ngo 1.19\n") = "\tgithub.com/spf13/viper v1.19.0\n"
        ∨ ("module " ++ apiGoModDemo.Module ++ "\n\ngo 1.19\n") = ")\n" :=
  (goMod_dependency_gating apiGoModDemo "t" 2025).2.2.2.2.2.2
    ("module " ++ apiGoModDemo.Module ++ "\n\ngo 1.19\n") (by decide)

end Gogo

namespace Gogo

/-- Agreement on the nineteen config fields that generateConfigFile renders
into gogo.yaml (all fields except Type and UseGin). -/
def capturedAgree (c₁ c₂ : ProjectConfig) : Prop :=
  c₁.Name = c₂.Name ∧ c₁.Module = c₂.Module ∧ c₁.Description = c₂.Description
    ∧ c₁.License = c₂.License ∧ c₁.Author = c₂.Author
    ∧ c₁.UseCmd = c₂.UseCmd ∧ c₁.UseInternal = c₂.UseInternal ∧ c₁.UsePkg = c₂.UsePkg
    ∧ c₁.UseTest = c₂.UseTest ∧ c₁.UseDocs = c₂.UseDocs
    ∧ c₁.CreateReadme = c₂.CreateReadme ∧ c₁.CreateLicense = c₂.CreateLicense
    ∧ c₁.CreateMakefile = c₂.CreateMakefile
    ∧ c₁.UseLinters = c₂.UseLinters ∧ c₁.UsePreCommitHooks = c₂.UsePreCommitHooks
    ∧ c₁.UseGitHooks = c₂.UseGitHooks
    ∧ c₁.UseCobra = c₂.UseCobra ∧ c₁.UseViper = c₂.UseViper
    ∧ c₁.UseGitHubActions = c₂.UseGitHubActions

/-- C3 counterexample: gogo.yaml does not capture every config field
verbatim: two configs differing only in Type produce identical gogo.yaml
content, and so do two configs differing only in UseGin — generateConfigFile
renders neither field. -/
theorem configFile_capture_counterexample :
    (configFileContent { NewDefaultProjectConfig with «Type» := TypeCLI } "T"
        = configFileContent { NewDefaultProjectConfig with «Type» := TypeAPI } "T"
      ∧ ({ NewDefaultProjectConfig with «Type» := TypeCLI } : ProjectConfig).«Type»
          ≠ ({ NewDefaultProjectConfig with «Type» := TypeAPI } : ProjectConfig).«Type»)
    ∧ (configFileContent { NewDefaultProjectConfig with UseGin := true } "T"
        = configFileContent { NewDefaultProjectConfig with UseGin := false } "T"
      ∧ ({ NewDefaultProjectConfig with UseGin := true } : ProjectConfig).UseGin
          ≠ ({ NewDefaultProjectConfig with UseGin := false } : ProjectConfig).UseGin) :=
  ⟨⟨rfl, by decide⟩, ⟨rfl, by decide⟩⟩

/-- C3 amended: every GenerateProject run writes gogo.yaml (with the
generateConfigFile content) unconditionally; that content begins with the
generation timestamp; it is a function of exactly the nineteen captured
fields (all fields except Type and UseGin); and it is sensitive to each of
the captured fields. -/
theorem configFile_capture_amended (cfg : ProjectConfig) (now : String) (year : Int) :
    (["gogo.yaml"], configFileContent cfg now) ∈ writesOf (GenerateProject cfg now year)
    ∧ (∃ rest : String, configFileContent cfg now
        = "# Gogo Project Configuration\n# Generated on: " ++ (now ++ rest))
    ∧ (∀ c₂ : ProjectConfig, capturedAgree cfg c₂ →
        configFileContent cfg now = configFileContent c₂ now)
    ∧ configFileContent { cfg with Name := "a" } now
        ≠ configFileContent { cfg with Name := "ab" } now
    ∧ configFileContent { cfg with Module := "a" } now
        ≠ configFileContent { cfg with Module := "ab" } now
    ∧ configFileContent { cfg with Description := "a" } now
        ≠ configFileContent { cfg with Description := "ab" } now
    ∧ configFileContent { cfg with License := "a" } now
        ≠ configFileContent { cfg with License := "ab" } now
    ∧ configFileContent { cfg with Author := "a" } now
        ≠ configFileContent { cfg with Author := "ab" } now
    ∧ configFileContent { cfg with UseCmd := true } now
        ≠ configFileContent { cfg with UseCmd := false } now
    ∧ configFileContent { cfg with UseInternal := true } now
        ≠ configFileContent { cfg with UseInternal := false } now
    ∧ configFileContent { cfg with UsePkg := true } now
        ≠ configFileContent { cfg with UsePkg := false } now
    ∧ configFileContent { cfg with UseTest := true } now
        ≠ configFileContent { cfg with UseTest := false } now
    ∧ configFileContent { cfg with UseDocs := true } now
        ≠ configFileContent { cfg with UseDocs := false } now
    ∧ configFileContent { cfg with CreateReadme := true } now
        ≠ configFileContent { cfg with CreateReadme := false } now
    ∧ configFileContent { cfg with CreateLicense := true } now
        ≠ configFileContent { cfg with CreateLicense := false } now
    ∧ configFileContent { cfg with CreateMakefile := true } now
        ≠ configFileContent { cfg with CreateMakefile := false } now
    ∧ configFileContent { cfg with UseLinters := true } now
        ≠ configFileContent { cfg with UseLinters := false } now
    ∧ configFileContent { cfg with UsePreCommitHooks := true } now
        ≠ configFileContent { cfg with UsePreCommitHooks := false } now
    ∧ configFileContent { cfg with UseGitHooks := true } now
        ≠ configFileContent { cfg with UseGitHooks := false } now
    ∧ configFileContent { cfg with UseCobra := true } now
        ≠ configFileContent { cfg with UseCobra := false } now
    ∧ configFileContent { cfg with UseViper := true } now
        ≠ configFileContent { cfg with UseViper := false } now
    ∧ configFileContent { cfg with UseGitHubActions := true } now
        ≠ configFileContent { cfg with UseGitHubActions := false } now := by
  refine ⟨?_, ?_, ?_, ?_, ?_, ?_, ?_, ?_, ?_, ?_, ?_, ?_, ?_, ?_, ?_, ?_, ?_, ?_,
    ?_, ?_, ?_, ?_⟩
  · simp [GenerateProject, generateRootFiles, generateConfigFile, structureDirOps,
      generateGoMod, generateGitHubWorkflows, generateLinterConfig,
      generatePreCommitConfig, dirOps, writesOf_append, writesOf_onlyIf, mem_ite_nil]
  · exact ⟨"\n\n# Project Information\nproject:\n  name: " ++ goQuote cfg.Name
      ++ "\n  module: " ++ goQuote cfg.Module
      ++ "\n  description: " ++ goQuote cfg.Description
      ++ "\n  license: " ++ goQuote cfg.License
      ++ "\n  author: " ++ goQuote cfg.Author
      ++ "\n\n# Project Structure\nstructure:\n  use_cmd: " ++ boolStr cfg.UseCmd
      ++ "\n  use_internal: " ++ boolStr cfg.UseInternal
      ++ "\n  use_pkg: " ++ boolStr cfg.UsePkg
      ++ "\n  use_test: " ++ boolStr cfg.UseTest
      ++ "\n  use_docs: " ++ boolStr cfg.UseDocs
      ++ "\n\n# Generated Files\nfiles:\n  create_readme: " ++ boolStr cfg.CreateReadme
      ++ "\n  create_license: " ++ boolStr cfg.CreateLicense
      ++ "\n  create_makefile: " ++ boolStr cfg.CreateMakefile
      ++ "\n\n# Code Quality\nquality:\n  use_linters: " ++ boolStr cfg.UseLinters
      ++ "\n  use_pre_commit_hooks: " ++ boolStr cfg.UsePreCommitHooks
      ++ "\n  use_git_hooks: " ++ boolStr cfg.UseGitHooks
      ++ "\n\n# Dependencies\ndependencies:\n  use_cobra: " ++ boolStr cfg.UseCobra
      ++ "\n  use_viper: " ++ boolStr cfg.UseViper
      ++ "\n\n# CI/CD\ncicd:\n  use_github_actions: " ++ boolStr cfg.UseGitHubActions
      ++ "\n", by simp [configFileContent, String.append_assoc]⟩
  · intro c₂ h
    obtain ⟨h₁, h₂, h₃, h₄, h₅, h₆, h₇, h₈, h₉, h₁₀, h₁₁, h₁₂, h₁₃, h₁₄, h₁₅,
      h₁₆, h₁₇, h₁₈, h₁₉⟩ := h
    simp only [configFileContent, h₁, h₂, h₃, h₄, h₅, h₆, h₇, h₈, h₉, h₁₀, h₁₁,
      h₁₂, h₁₃, h₁₄, h₁₅, h₁₆, h₁₇, h₁₈, h₁₉]
  all_goals
    intro h
    have hl := congrArg String.length h
    simp only [configFileContent, String.length_append,
      show boolStr true = "true" from rfl, show boolStr false = "false" from rfl,
      show ("true" : String).length = 4 from rfl,
      show ("false" : String).length = 5 from rfl,
      show (goQuote "a").length = 3 from rfl,
      show (goQuote "ab").length = 4 from rfl] at hl
    omega

/-- C3 witness: the dependence clause applied to two concrete configs that
agree on every captured field but differ in Type. -/
theorem configFile_capture_amended_witness :
    configFileContent { NewDefaultProjectConfig with «Type» := "webapp" } "T"
      = configFileContent NewDefaultProjectConfig "T" :=
  (configFile_capture_amended { NewDefaultProjectConfig with «Type» := "webapp" } "T" 2025).2.2.1
    NewDefaultProjectConfig (by simp [capturedAgree])

end Gogo

namespace Gogo

theorem filter_ite_nil {α : Type} (q : α → Bool) (b : Prop) [Decidable b] (l : List α) :
    (if b then l else []).filter q = if b then l.filter q else [] := by
  split <;> rfl

theorem subIte {α : Type} {b : Prop} [Decidable b] {l l' rest master : List α}
    (hl : List.Sublist l l') (h : List.Sublist rest master) :
    List.Sublist ((if b then l else []) ++ rest) (l' ++ master) := by
  split
  · exact hl.append h
  · exact (List.nil_sublist l').append h

theorem subIteEnd {α : Type} {b : Prop} [Decidable b] {l l' : List α}
    (hl : List.Sublist l l') :
    List.Sublist (if b then l else []) l' := by
  split
  · exact hl
  · exact List.nil_sublist l'

/-- Every write path of the type-dispatched initial code is either the
default root main.go or a path of at least three components rooted at cmd,
internal or pkg. -/
theorem initialCode_path_shape (cfg : ProjectConfig) :
    ∀ p ∈ writePaths (generateInitialCodeByType cfg),
      p = ["main.go"]
      ∨ (3 ≤ p.length
          ∧ (p.head? = some "cmd" ∨ p.head? = some "internal" ∨ p.head? = some "pkg")) := by
  intro p hp
  unfold generateInitialCodeByType at hp
  split_ifs at hp
  · simp [generateCLICode] at hp
    rcases hp with h | h | h <;> simp [h]
  · simp [generateAPICode] at hp
    rcases hp with h | h | h <;> simp [h]
  · simp [generateLibraryCode] at hp
    rcases hp with h | h <;> simp [h]
  · simp [generateDefaultCode] at hp
    simp [hp]

/-- The write paths of the type-dispatched initial code are duplicate-free. -/
theorem initialCode_nodup (cfg : ProjectConfig) :
    (writePaths (generateInitialCodeByType cfg)).Nodup := by
  unfold generateInitialCodeByType
  split_ifs <;>
    simp [generateCLICode, generateAPICode, generateLibraryCode, generateDefaultCode]

/-- C9 counterexample: for the default config the ordered write-path list of
a GenerateProject run has a duplicate (gogo.yaml is written twice, once by
generateRootFiles and once again directly by GenerateProject). -/
theorem writePaths_not_nodup_counterexample :
    ¬ (writePaths (GenerateProject NewDefaultProjectConfig "T" 2025)).Nodup := by
  decide

/-- C9 amended: in every GenerateProject run the path gogo.yaml appears
exactly twice among the writes — both times with the same generateConfigFile
content — and apart from gogo.yaml no two writes share a path. -/
theorem writePaths_dup_only_gogoYaml (cfg : ProjectConfig) (now : String) (year : Int) :
    (writePaths (GenerateProject cfg now year)).count ["gogo.yaml"] = 2
    ∧ (writesOf (GenerateProject cfg now year)).count
        (["gogo.yaml"], configFileContent cfg now) = 2
    ∧ ((writePaths (GenerateProject cfg now year)).filter
        (fun p => p ≠ ["gogo.yaml"])).Nodup := by
  refine ⟨?_, ?_, ?_⟩
  · simp only [GenerateProject, generateInitialCodeByType]
    split_ifs with h1 h2 h3 <;>
    simp [generateRootFiles, generateConfigFile, structureDirOps,
      generateCLICode, generateAPICode, generateLibraryCode, generateDefaultCode,
      generateGoMod, generateGitHubWorkflows, generateLinterConfig,
      generatePreCommitConfig, dirOps, writePaths_append, writePaths_onlyIf,
      List.count_append, List.count_cons, apply_ite (List.count (["gogo.yaml"] : Path))]
  · simp only [GenerateProject, generateInitialCodeByType]
    split_ifs with h1 h2 h3 <;>
    simp [generateRootFiles, generateConfigFile, structureDirOps,
      generateCLICode, generateAPICode, generateLibraryCode, generateDefaultCode,
      generateGoMod, generateGitHubWorkflows, generateLinterConfig,
      generatePreCommitConfig, dirOps, writesOf_append, writesOf_onlyIf,
      List.count_append, List.count_cons,
      apply_ite (List.count ((["gogo.yaml"], configFileContent cfg now) : Path × String))]
  · have hsplit : (writePaths (GenerateProject cfg now year)).filter
        (fun p => p ≠ ["gogo.yaml"])
        = ((writePaths (generateRootFiles cfg now year)
            ++ writePaths (structureDirOps cfg)).filter (fun p => p ≠ ["gogo.yaml"]))
          ++ (((writePaths (generateInitialCodeByType cfg)).filter
                (fun p => p ≠ ["gogo.yaml"]))
            ++ ((writePaths (generateConfigFile cfg now)
                ++ (writePaths (generateGoMod cfg)
                ++ (writePaths (onlyIf cfg.UseGitHubActions (generateGitHubWorkflows cfg))
                ++ (writePaths (onlyIf cfg.UseLinters (generateLinterConfig cfg))
                ++ writePaths (onlyIf cfg.UsePreCommitHooks
                    (generatePreCommitConfig cfg)))))).filter
                  (fun p => p ≠ ["gogo.yaml"]))) := by
      simp only [GenerateProject, writePaths_append, writePaths_mkdir, writePaths_nil,
        List.filter_append, List.append_assoc, List.nil_append]
    rw [hsplit]
    have sub1 : List.Sublist
        ((writePaths (generateRootFiles cfg now year)
          ++ writePaths (structureDirOps cfg)).filter (fun p => p ≠ ["gogo.yaml"]))
        ([["README.md"]] ++ ([["LICENSE"]] ++ ([".gitignore"] :: ([["Makefile"]] ++
          ([["cmd", ".gitkeep"]] ++ ([["internal", ".gitkeep"]] ++ ([["pkg", ".gitkeep"]] ++
          ([["docs", ".gitkeep"]] ++ [["test", ".gitkeep"]])))))))) := by
      simp only [generateRootFiles, generateConfigFile, structureDirOps, dirOps,
        writePaths_append, writePaths_onlyIf, writePaths_write, writePaths_mkdir,
        writePaths_nil, List.filter_append, filter_ite_nil, List.filter_cons,
        List.append_assoc]
      simp
      exact subIte (List.Sublist.refl _) (subIte (List.Sublist.refl _)
        (List.Sublist.cons₂ _ (subIte (List.Sublist.refl _) (subIte (List.Sublist.refl _)
          (subIte (List.Sublist.refl _) (subIte (List.Sublist.refl _)
            (subIte (List.Sublist.refl _) (subIteEnd (List.Sublist.refl _)))))))))
    have sub2 : List.Sublist
        ((writePaths (generateConfigFile cfg now)
          ++ (writePaths (generateGoMod cfg)
          ++ (writePaths (onlyIf cfg.UseGitHubActions (generateGitHubWorkflows cfg))
          ++ (writePaths (onlyIf cfg.UseLinters (generateLinterConfig cfg))
          ++ writePaths (onlyIf cfg.UsePreCommitHooks
              (generatePreCommitConfig cfg)))))).filter (fun p => p ≠ ["gogo.yaml"]))
        (["go.mod"] :: ([[".github", "workflows", "ci.yml"], [".github", "workflows", "lint.yml"]]
          ++ ([[".golangci.yml"]] ++ [[".pre-commit-config.yaml"], [".commitlintrc.yaml"]]))) := by
      simp only [generateConfigFile, generateGoMod, generateGitHubWorkflows,
        generateLinterConfig, generatePreCommitConfig, writePaths_append,
        writePaths_onlyIf, writePaths_write, writePaths_mkdir, writePaths_nil,
        List.filter_append, filter_ite_nil, List.filter_cons, List.append_assoc]
      simp
      exact @subIte _ (cfg.UseGitHubActions = true) _ _ _ _ _
        (List.Sublist.cons₂ _
          (@subIteEnd _ (cfg.UseLinters = true) _ _ _ (List.Sublist.refl _)))
        (@subIte _ (cfg.UseLinters = true) _ _ _ _ _ (List.Sublist.refl _)
          (@subIteEnd _ (cfg.UsePreCommitHooks = true) _ _ _ (List.Sublist.refl _)))
    have n1 : ((writePaths (generateRootFiles cfg now year)
        ++ writePaths (structureDirOps cfg)).filter (fun p => p ≠ ["gogo.yaml"])).Nodup :=
      ((by decide :
        ([["README.md"], ["LICENSE"], [".gitignore"], ["Makefile"], ["cmd", ".gitkeep"],
          ["internal", ".gitkeep"], ["pkg", ".gitkeep"], ["docs", ".gitkeep"],
          ["test", ".gitkeep"]] : List Path).Nodup).sublist sub1)
    have nTP : ((writePaths (generateInitialCodeByType cfg)).filter
        (fun p => p ≠ ["gogo.yaml"])).Nodup :=
      (initialCode_nodup cfg).filter _
    have n2 : ((writePaths (generateConfigFile cfg now)
        ++ (writePaths (generateGoMod cfg)
        ++ (writePaths (onlyIf cfg.UseGitHubActions (generateGitHubWorkflows cfg))
        ++ (writePaths (onlyIf cfg.UseLinters (generateLinterConfig cfg))
        ++ writePaths (onlyIf cfg.UsePreCommitHooks
            (generatePreCommitConfig cfg)))))).filter (fun p => p ≠ ["gogo.yaml"])).Nodup :=
      ((by decide : ([["go.mod"], [".github", "workflows", "ci.yml"],
          [".github", "workflows", "lint.yml"], [".golangci.yml"],
          [".pre-commit-config.yaml"], [".commitlintrc.yaml"]] : List Path).Nodup).sublist
        sub2)
    have d23 : List.Disjoint
        ((writePaths (generateInitialCodeByType cfg)).filter (fun p => p ≠ ["gogo.yaml"]))
        ((writePaths (generateConfigFile cfg now)
          ++ (writePaths (generateGoMod cfg)
          ++ (writePaths (onlyIf cfg.UseGitHubActions (generateGitHubWorkflows cfg))
          ++ (writePaths (onlyIf cfg.UseLinters (generateLinterConfig cfg))
          ++ writePaths (onlyIf cfg.UsePreCommitHooks
              (generatePreCommitConfig cfg)))))).filter (fun p => p ≠ ["gogo.yaml"])) := by
      intro p hp1 hp2
      have hp1u : p ∈ writePaths (generateInitialCodeByType cfg) :=
        List.mem_of_mem_filter hp1
      have hshape := initialCode_path_shape cfg p hp1u
      have hm2 : p ∈ ([["go.mod"], [".github", "workflows", "ci.yml"],
          [".github", "workflows", "lint.yml"], [".golangci.yml"],
          [".pre-commit-config.yaml"], [".commitlintrc.yaml"]] : List Path) :=
        sub2.subset hp2
      rcases hshape with h | ⟨hlen, hhead⟩
      · subst h
        exact absurd hm2 (by decide)
      · have hsmall : ∀ q ∈ ([["go.mod"], [".github", "workflows", "ci.yml"],
            [".github", "workflows", "lint.yml"], [".golangci.yml"],
            [".pre-commit-config.yaml"], [".commitlintrc.yaml"]] : List Path),
            q.length = 1 ∨ q.head? = some ".github" := by decide
        rcases hsmall p hm2 with h1 | h1
        · omega
        · rw [h1] at hhead
          rcases hhead with h | h | h <;> simp at h
    have d123 : List.Disjoint
        ((writePaths (generateRootFiles cfg now year)
          ++ writePaths (structureDirOps cfg)).filter (fun p => p ≠ ["gogo.yaml"]))
        (((writePaths (generateInitialCodeByType cfg)).filter (fun p => p ≠ ["gogo.yaml"]))
          ++ ((writePaths (generateConfigFile cfg now)
            ++ (writePaths (generateGoMod cfg)
            ++ (writePaths (onlyIf cfg.UseGitHubActions (generateGitHubWorkflows cfg))
            ++ (writePaths (onlyIf cfg.UseLinters (generateLinterConfig cfg))
            ++ writePaths (onlyIf cfg.UsePreCommitHooks
                (generatePreCommitConfig cfg)))))).filter (fun p => p ≠ ["gogo.yaml"]))) := by
      intro p hp1 hp2
      have hm1 : p ∈ ([["README.md"], ["LICENSE"], [".gitignore"], ["Makefile"],
          ["cmd", ".gitkeep"], ["internal", ".gitkeep"], ["pkg", ".gitkeep"],
          ["docs", ".gitkeep"], ["test", ".gitkeep"]] : List Path) := sub1.subset hp1
      rcases List.mem_append.1 hp2 with hp2 | hp2
      · have hp2u : p ∈ writePaths (generateInitialCodeByType cfg) :=
          List.mem_of_mem_filter hp2
        have hshape := initialCode_path_shape cfg p hp2u
        rcases hshape with h | ⟨hlen, _⟩
        · subst h
          exact absurd hm1 (by decide)
        · have hsmall : ∀ q ∈ ([["README.md"], ["LICENSE"], [".gitignore"], ["Makefile"],
              ["cmd", ".gitkeep"], ["internal", ".gitkeep"], ["pkg", ".gitkeep"],
              ["docs", ".gitkeep"], ["test", ".gitkeep"]] : List Path), q.length ≤ 2 := by
            decide
          have := hsmall p hm1
          omega
      · have hm2 : p ∈ ([["go.mod"], [".github", "workflows", "ci.yml"],
            [".github", "workflows", "lint.yml"], [".golangci.yml"],
            [".pre-commit-config.yaml"], [".commitlintrc.yaml"]] : List Path) :=
          sub2.subset hp2
        exact (by decide : ∀ q ∈ ([["README.md"], ["LICENSE"], [".gitignore"], ["Makefile"],
            ["cmd", ".gitkeep"], ["internal", ".gitkeep"], ["pkg", ".gitkeep"],
            ["docs", ".gitkeep"], ["test", ".gitkeep"]] : List Path),
            q ∉ ([["go.mod"], [".github", "workflows", "ci.yml"],
              [".github", "workflows", "lint.yml"], [".golangci.yml"],
              [".pre-commit-config.yaml"], [".commitlintrc.yaml"]] : List Path)) p hm1 hm2
    exact n1.append (nTP.append n2 d23) d123

end Gogo
